import Mathlib

/-
Verification of the parampool repository against its specification.

Shallow embedding of src/parampool/menu/DataItem.py and
src/parampool/tree/SubTree.py (Python 2).  Python values are modelled by
the inductive type PyVal, Python floats by rationals (none of the verified
properties depends on rounding), raised exceptions by the inductive PyError,
and the behaviour of CPython builtins and of the external libraries
(eval, float, int, complex, numpy.asarray, and
Scientific.Physics.PhysicalQuantities) by an explicit environment PyEnv:
those functions are not part of the repository, so the theorems quantify
over the environment, and closed evaluations use a small concrete
environment whose answers agree with CPython on the inputs they are
evaluated at.
-/

set_option maxHeartbeats 1000000

namespace Parampool

/-- Exception classes of the exceptions that the modelled code can raise. -/
inductive PyClass where
  | valueError
  | typeError
  | nameError
  | syntaxError
  | dataItemValueError
  | otherError
deriving DecidableEq

/-- An exception coming out of a CPython builtin, an external library, or a
user-supplied callable: its class and its message. -/
structure UserExc where
  cls : PyClass
  msg : String
deriving DecidableEq

/-- The three numeric classes whose constructor DataItem.__init__ installs as
the conversion rule when the default value has that type (source line 73-75:
type(2.0), type(2), type(2+0j)). -/
inductive NumType where
  | tInt
  | tFloat
  | tComplex
deriving DecidableEq

/-- Python values, as far as the repository inspects them.  Python floats are
modelled by Rat; Python str and unicode are both modelled by str (the code
only ever tests isinstance(-, basestring) and isinstance(-, str) on values
that are plain str).  A value of any other class is modelled by other. -/
inductive PyVal where
  | none
  | str (s : String)
  | bool (b : Bool)
  | int (n : Int)
  | float (q : Rat)
  | complex (re im : Rat)
  | list (xs : List PyVal)
  | tuple (xs : List PyVal)
  | dict (entries : List (PyVal × PyVal))
  | ndarray (xs : List PyVal)
  | other (tag : String)

/-- The value flowing out of DataItem._handle_unit_conversion: the docstring
of that method states it returns a float if the string carried a unit and
otherwise the incoming string. -/
inductive UVal where
  | s (s : String)
  | f (q : Rat)

/-- View a unit-conversion result as a Python value. -/
def UVal.toPyVal : UVal → PyVal
  | .s t => .str t
  | .f q => .float q

/-- The str2type attribute of a DataItem: the callable that turns the
assigned string into a typed value.  strRule is the class str (the source
tests inspect.isclass and issubclass(-, basestring)); evalRule is the
builtin eval (the source compares str2type == eval); str2boolRule is the
module function str2bool; ndarrayRule is the lambda installed for ndarray
defaults (source line 72); ofType is the int/float/complex constructor;
user is any other callable supplied by the caller. -/
inductive Str2Type where
  | strRule
  | evalRule
  | str2boolRule
  | ndarrayRule
  | ofType (t : NumType)
  | user (f : UVal → Except UserExc PyVal)

/-- A user-supplied validation callable stored under the data key validate.
In the source it receives (self, value); the model passes only the value,
since the repository never inspects what the callable does with self. -/
abbrev VFn : Type := PyVal → Except UserExc Unit

/-- An eval namespace.  The repository only tests whether the data key
namespace is present and passes its value to eval, so a namespace is an
opaque token interpreted by the environment. -/
abbrev PyNamespace : Type := String

/-- Exceptions raised by the modelled repository code, one constructor per
raise site (or per builtin failure that escapes the repository code).
The source builds message strings with the %-operator; the model keeps the
formatted-in data as structured fields. -/
inductive PyError where
  /-- ValueError, DataItem.set_value line 213: value is not a str. -/
  | valueNotString (sig : String) (v : PyVal)
  /-- ValueError, DataItem.__init__ line 42: no name keyword. -/
  | missingName
  /-- ValueError, DataItem.__init__ line 51: keyword not in _legal_data. -/
  | illegalArg (sig : String) (arg : String)
  /-- TypeError out of DataItem._check_validity_of_data.  Every failure
  branch of that method raises TypeError: the minmax and options and
  help/widget branches call TypeError directly, and the remaining branch
  (minmax element types, line 99) raises TypeError accidentally, because
  its message applies a multi-slot %-format to the single string returned
  by _signature, which itself raises TypeError while the arguments of the
  intended ValueError are being evaluated. -/
  | checkError (field : String)
  /-- TypeError, DataItem._process_value line 151: str2type failed; carries
  the converter, the offending value and the underlying exception, exactly
  the data the source formats into the message. -/
  | str2typeError (rule : Str2Type) (v : UVal) (underlying : UserExc)
  /-- DataItemValueError, DataItem._handle_unit_conversion line 187: the
  unit of the assigned value is not compatible with the registered unit. -/
  | unitIncompatible (sig : String) (value : String) (given : String) (registered : String)
  /-- NameError: an undefined identifier was evaluated.  Raised by
  _handle_unit_conversion line 194 (the identifier unit is unbound) and by
  _validate line 162 (DataItmValueError is a typo for DataItemValueError,
  and the name lookup of the callee fails before its argument is built). -/
  | nameErr (ident : String)
  /-- DataItemValueError, DataItem._validate line 168: value not in the
  options list. -/
  | optionsError (sig : String) (v : PyVal) (options : List PyVal)
  /-- ValueError, SubTree.get_parent line 20: the node is a root. -/
  | rootNoParent (name : String)
  /-- An exception from a builtin, an external library or a user callable
  that escapes the repository code unwrapped. -/
  | external (e : UserExc)

/-- The Python class of each modelled exception. -/
def PyError.pyClass : PyError → PyClass
  | .valueNotString _ _ => .valueError
  | .missingName => .valueError
  | .illegalArg _ _ => .valueError
  | .checkError _ => .typeError
  | .str2typeError _ _ _ => .typeError
  | .unitIncompatible _ _ _ _ => .dataItemValueError
  | .nameErr _ => .nameError
  | .optionsError _ _ _ => .dataItemValueError
  | .rootNoParent _ => .valueError
  | .external e => e.cls

/-- A PhysicalQuantity as the repository uses it: getValue and getUnitName. -/
structure PhysQ where
  value : Rat
  unitName : String
deriving DecidableEq

/-- The behaviour of the CPython builtins and external libraries the
DataItem code calls.  These are not repository code, so they are
parameters of the model. -/
structure PyEnv where
  /-- eval(s) in the module globals (which import all of math). -/
  evalG : String → Except UserExc PyVal
  /-- eval(s, ns) in a user namespace. -/
  evalIn : PyNamespace → String → Except UserExc PyVal
  /-- float(s) on a string. -/
  parseFloat : String → Except UserExc Rat
  /-- int(s) on a string. -/
  parseInt : String → Except UserExc Int
  /-- complex(s) on a string. -/
  parseComplex : String → Except UserExc (Rat × Rat)
  /-- numpy.asarray. -/
  asarray : PyVal → Except UserExc PyVal
  /-- PhysicalQuantity(s): parse a number-with-unit string. -/
  pqParse : String → Except UserExc PhysQ
  /-- q.isCompatible(target): first argument is the unit of the quantity,
  second the target unit. -/
  isCompatible : String → String → Bool
  /-- q.convertToUnit(target) followed by getValue/getUnitName. -/
  convertTo : PhysQ → String → PhysQ

/-- CPython TypeError when eval receives a non-string first argument. -/
def evalArgTypeExc : UserExc :=
  { cls := .typeError, msg := "eval() arg 1 must be a string or code object" }

/-- Python str() of a value, used only inside exception messages.  The
rendering of composite values is abbreviated; no theorem depends on it. -/
def pyStr : PyVal → String
  | .none => "None"
  | .str s => s
  | .bool b => if b then "True" else "False"
  | .int n => toString n
  | .float q => toString q
  | .complex _ _ => "complex"
  | .list _ => "list"
  | .tuple _ => "tuple"
  | .dict _ => "dict"
  | .ndarray _ => "ndarray"
  | .other t => t

/-- A value viewed as a Python number for == and for order comparisons:
bool is a subclass of int in Python 2, so True compares as 1. -/
def asNum : PyVal → Option Rat
  | .bool b => some (if b then 1 else 0)
  | .int n => some (n : Rat)
  | .float q => some q
  | _ => none

/-- A value viewed as a complex number for Python == (1 == 1.0 == 1+0j). -/
def asComplex : PyVal → Option (Rat × Rat)
  | .bool b => some (if b then 1 else 0, 0)
  | .int n => some ((n : Rat), 0)
  | .float q => some (q, 0)
  | .complex re im => some (re, im)
  | _ => none

mutual
/-- Python == on values, as used by the membership test value in options.
Numbers of different numeric classes compare by value; sequences compare
elementwise within the same class; values of class instance compare by
identity in CPython, modelled as never equal. -/
def pyEq : PyVal → PyVal → Bool
  | .none, .none => true
  | .str s, .str t => s == t
  | .list xs, .list ys => pyEqList xs ys
  | .tuple xs, .tuple ys => pyEqList xs ys
  | .ndarray xs, .ndarray ys => pyEqList xs ys
  | .dict xs, .dict ys => pyEqPairs xs ys
  | a, b =>
    match asComplex a, asComplex b with
    | some x, some y => decide (x = y)
    | _, _ => false

/-- Elementwise Python == on two lists of values. -/
def pyEqList : List PyVal → List PyVal → Bool
  | [], [] => true
  | x :: xs, y :: ys => pyEq x y && pyEqList xs ys
  | _, _ => false

/-- Pairwise Python == on dict entry lists (a coarse model of CPython dict
equality; no verified property inspects dict contents). -/
def pyEqPairs : List (PyVal × PyVal) → List (PyVal × PyVal) → Bool
  | [], [] => true
  | (k, v) :: xs, (l, w) :: ys => pyEq k l && pyEq v w && pyEqPairs xs ys
  | _, _ => false
end

/-- Python 2 type name used for cross-type order comparisons. -/
def typeName : PyVal → String
  | .none => "NoneType"
  | .str _ => "str"
  | .bool _ => "bool"
  | .int _ => "int"
  | .float _ => "float"
  | .complex _ _ => "complex"
  | .list _ => "list"
  | .tuple _ => "tuple"
  | .dict _ => "dict"
  | .ndarray _ => "ndarray"
  | .other _ => "instance"

/-- Python 2 order comparison a <= b, as evaluated by the minmax check
lo <= value <= hi.  Numbers compare by value, complex operands raise
TypeError, None sorts below everything, any other number sorts below any
non-number, strings compare lexicographically, and remaining cross-type
pairs compare by type name (CPython 2 default ordering; same-type
composite operands are compared coarsely by type name here, which is
unreachable from set_value because _check_validity_of_data forces minmax
bounds to be numbers). -/
def pyLe (a b : PyVal) : Except UserExc Bool :=
  match a, b with
  | .complex _ _, _ =>
    .error { cls := .typeError, msg := "no ordering relation is defined for complex numbers" }
  | _, .complex _ _ =>
    .error { cls := .typeError, msg := "no ordering relation is defined for complex numbers" }
  | a, b =>
    match asNum a, asNum b with
    | some x, some y => .ok (decide (x ≤ y))
    | _, _ =>
      match a, b with
      | .none, _ => .ok true
      | _, .none => .ok false
      | .str s, .str t => .ok (compare s t != Ordering.gt)
      | a, b =>
        match asNum a, asNum b with
        | some _, _ => .ok true
        | _, some _ => .ok false
        | _, _ => .ok (compare (typeName a) (typeName b) != Ordering.gt)

/-- Python whitespace (the re class \s and the str.strip default). -/
def isPyWs (c : Char) : Bool :=
  c == ' ' || c == '\t' || c == '\n' || c == '\x0d' || c == '\x0b' || c == '\x0c'

/-- Python str.strip with no argument: drop leading and trailing whitespace. -/
def pyStrip (s : String) : String :=
  String.mk (((s.toList.dropWhile isPyWs).reverse.dropWhile isPyWs).reverse)

/-- Character class of the first group of the number_with_unit pattern in
DataItem._handle_unit_conversion: [Ee.0-9+-]. -/
def numChar (c : Char) : Bool :=
  c == 'E' || c == 'e' || c == '.' || c.isDigit || c == '+' || c == '-'

/-- Character class of the second group: [A-Za-z0-9*/]. -/
def unitChar (c : Char) : Bool :=
  c.isAlpha || c.isDigit || c == '*' || c == '/'

/-- The regular expression of DataItem._handle_unit_conversion line 178,
a caret, then a whitespace run, ([Ee.0-9+-]+), a run of one or more
spaces, ([A-Za-z0-9*/]+), a whitespace run and a dollar: on a match,
return the two groups.  The three character runs are pairwise disjoint at
their boundaries (neither group class contains the space), so the greedy
left-to-right scan below is equivalent to the backtracking search. -/
def matchNumberWithUnit (s : String) : Option (String × String) :=
  let cs := s.toList.dropWhile isPyWs
  let g1 := cs.takeWhile numChar
  let r1 := cs.dropWhile numChar
  if g1.isEmpty then Option.none else
  let sp := r1.takeWhile (fun c => c == ' ')
  let r2 := r1.dropWhile (fun c => c == ' ')
  if sp.isEmpty then Option.none else
  let g2 := r2.takeWhile unitChar
  let r3 := r2.dropWhile unitChar
  if g2.isEmpty then Option.none else
  if r3.all isPyWs then some (String.mk g1, String.mk g2) else Option.none

/-- The module-level function str2bool of DataItem.py lines 286-310, applied
to a possibly unit-converted value: a string is compared case-insensitively
against the fixed true and false word lists, anything else (here only a
float) raises TypeError.  Errors are reported as UserExc because the caller
(_process_value) catches and rewraps them. -/
def str2boolFn (v : UVal) : Except UserExc PyVal :=
  match v with
  | .s t =>
    let t2 := t.toLower
    if ["on", "true", "yes"].contains t2 then .ok (.bool true)
    else if ["off", "false", "no"].contains t2 then .ok (.bool false)
    else .error { cls := .valueError, msg := "is not a boolean value" }
  | .f _ =>
    .error { cls := .typeError, msg := "(not string!) cannot be converted to bool" }

/-- Python int(q) on a float: truncation toward zero (the quotient of the
reduced numerator by the denominator, rounded toward zero). -/
def ratTrunc (q : Rat) : Int :=
  Int.tdiv q.num (q.den : Int)

/-- Application of an int/float/complex class (installed as str2type when
the default value has that class) to the unit-converted value: on a float
argument the constructors convert numerically, on a string they parse via
the corresponding builtin. -/
def convertOfType (env : PyEnv) : NumType → UVal → Except UserExc PyVal
  | .tFloat, .f q => .ok (.float q)
  | .tFloat, .s t => (env.parseFloat t).map PyVal.float
  | .tInt, .f q => .ok (.int (ratTrunc q))
  | .tInt, .s t => (env.parseInt t).map PyVal.int
  | .tComplex, .f q => .ok (.complex q 0)
  | .tComplex, .s t => (env.parseComplex t).map (fun p => PyVal.complex p.1 p.2)

/-- The lambda installed for ndarray defaults (source line 72):
numpy.asarray(eval(s)).  A float argument makes eval raise TypeError. -/
def ndarrayConv (env : PyEnv) : UVal → Except UserExc PyVal
  | .s t =>
    match env.evalG t with
    | .ok w => env.asarray w
    | .error e => .error e
  | .f _ => .error evalArgTypeExc

/-- The DataItem state: the fields of self.data that the verified methods
read, plus self._values and self._assigned_value.  __init__ always installs
a str2type (source lines 59-79), so the field is not optional, and the
str2type-absent branch of _process_value (line 127) is dead code.  The
validate key is not in _legal_data, so __init__ can never store it; the
field exists because set_value reads self.data.get with a default
(line 221) and the dictionary could be mutated from outside. -/
structure DataItem where
  name : PyVal
  default : PyVal
  str2type : Str2Type
  unit : Option String
  minmax : Option (PyVal × PyVal)
  options : Option (List PyVal)
  nspace : Option PyNamespace
  validate : Option VFn
  values : List PyVal
  assigned : Bool

/-- DataItem._signature. -/
def DataItem.signature (name : PyVal) : String :=
  "DataItem \"" ++ pyStr name ++ "\""

/-- DataItem._handle_unit_conversion (source lines 172-197).  When the
string matches the number-with-unit pattern it is parsed as a
PhysicalQuantity; with a registered unit, a differing quantity unit is
converted if compatible and otherwise DataItemValueError is raised; with no
registered unit the source executes the assignment
self.data.unit = unit, whose right-hand side is an unbound identifier, so
it raises NameError before any mutation.  Without a pattern match the
string is returned unchanged. -/
def DataItem.handle_unit_conversion (env : PyEnv) (d : DataItem) (value : String) :
    Except PyError UVal :=
  match matchNumberWithUnit value with
  | Option.none => .ok (.s value)
  | some _ =>
    match env.pqParse value with
    | .error e => .error (.external e)
    | .ok q =>
      match d.unit with
      | some registered =>
        if registered == q.unitName then .ok (.f q.value)
        else if env.isCompatible q.unitName registered then
          .ok (.f (env.convertTo q registered).value)
        else
          .error (.unitIncompatible (DataItem.signature d.name) value q.unitName registered)
      | Option.none => .error (.nameErr "unit")

/-- The generic conversion branch of _process_value (the final else, lines
147-154): the raw result of calling str2type on the value, for every
str2type that is neither a string class nor eval.  For the two rules that
never reach that branch the result is none. -/
def rawConvert (env : PyEnv) (rule : Str2Type) (v : UVal) :
    Option (Except UserExc PyVal) :=
  match rule with
  | .str2boolRule => some (str2boolFn v)
  | .ndarrayRule => some (ndarrayConv env v)
  | .ofType t => some (convertOfType env t v)
  | .user f => some (f v)
  | .strRule => Option.none
  | .evalRule => Option.none

/-- The type-conversion part of DataItem._process_value (lines 126-156):
a string class returns the value unchanged; eval with a registered
namespace propagates its exceptions unwrapped, and bare eval swallows its
exceptions and keeps the string; any other callable has its exceptions
caught and rewrapped in a TypeError carrying the converter, the value and
the underlying exception. -/
def DataItem.applyStr2Type (env : PyEnv) (d : DataItem) (rule : Str2Type) (v : UVal) :
    Except PyError PyVal :=
  match rule with
  | .strRule => .ok v.toPyVal
  | .evalRule =>
    match d.nspace with
    | some ns =>
      match v with
      | .s t =>
        match env.evalIn ns t with
        | .ok w => .ok w
        | .error e => .error (.external e)
      | .f _ => .error (.external evalArgTypeExc)
    | Option.none =>
      match v with
      | .s t =>
        match env.evalG t with
        | .ok w => .ok w
        | .error _ => .ok (.str t)
      | .f q => .ok (.float q)
  | rule =>
    match rawConvert env rule v with
    | some (.ok w) => .ok w
    | some (.error e) => .error (.str2typeError rule v e)
    | Option.none => .ok v.toPyVal

/-- DataItem._process_value (lines 117-156): unit conversion followed by
type conversion. -/
def DataItem.process_value (env : PyEnv) (d : DataItem) (value : String) :
    Except PyError PyVal :=
  match DataItem.handle_unit_conversion env d value with
  | .error e => .error e
  | .ok uv => DataItem.applyStr2Type env d d.str2type uv

/-- DataItem._validate (lines 158-170).  The minmax check evaluates
lo <= value and then value <= hi with Python 2 comparison; a violation
raises NameError, because the source names the undefined class
DataItmValueError (a typo for DataItemValueError) and the callee lookup
fails before the (itself broken) %-format of the message is evaluated.
The options check raises DataItemValueError with the value and the list. -/
def DataItem.validateBuiltin (d : DataItem) (value : PyVal) : Except PyError Unit :=
  match d.minmax with
  | some (lo, hi) =>
    match pyLe lo value with
    | .error e => .error (.external e)
    | .ok false => .error (.nameErr "DataItmValueError")
    | .ok true =>
      match pyLe value hi with
      | .error e => .error (.external e)
      | .ok false => .error (.nameErr "DataItmValueError")
      | .ok true =>
        match d.options with
        | some opts =>
          if opts.any (fun o => pyEq value o) then .ok ()
          else .error (.optionsError (DataItem.signature d.name) value opts)
        | Option.none => .ok ()
  | Option.none =>
    match d.options with
    | some opts =>
      if opts.any (fun o => pyEq value o) then .ok ()
      else .error (.optionsError (DataItem.signature d.name) value opts)
    | Option.none => .ok ()

/-- The validate dispatch of set_value line 221:
self.data.get with key validate defaulting to DataItem._validate. -/
def DataItem.runValidate (d : DataItem) (value : PyVal) : Except PyError Unit :=
  match d.validate with
  | some f =>
    match f value with
    | .ok () => .ok ()
    | .error e => .error (.external e)
  | Option.none => DataItem.validateBuiltin d value

/-- Python str.split on a single separator character: every occurrence
separates, empty pieces are kept, and the empty string yields one empty
piece. -/
def splitChar (sep : Char) : List Char → List (List Char)
  | [] => [[]]
  | c :: rest =>
    match splitChar sep rest with
    | h :: t => if c == sep then [] :: h :: t else (c :: h) :: t
    | [] => [[c]]

/-- The splitting step of set_value (lines 216-219): an ampersand makes the
string split on every ampersand with each part stripped; otherwise the
single unstripped string. -/
def DataItem.splitParts (s : String) : List String :=
  if s.toList.any (fun c => c == '&') then
    (splitChar '&' s.toList).map (fun cs => pyStrip (String.mk cs))
  else [s]

/-- The conversion loop of set_value (lines 222-225).  Before the loop the
source has already replaced self._values by the raw parts; the loop
overwrites index i with the converted, validated value.  An exception at
part i therefore leaves the stored values as the already-converted prefix
followed by the raw remaining parts; the model returns that state together
with the raised exception.  done holds the converted prefix reversed. -/
def DataItem.processParts (env : PyEnv) (d : DataItem) :
    List PyVal → List String → DataItem × Option PyError
  | done, [] => ({ d with values := done.reverse, assigned := true }, Option.none)
  | done, p :: rest =>
    match DataItem.process_value env d p with
    | .error e =>
      ({ d with values := done.reverse ++ (p :: rest).map PyVal.str }, some e)
    | .ok w =>
      match DataItem.runValidate d w with
      | .error e =>
        ({ d with values := done.reverse ++ (p :: rest).map PyVal.str }, some e)
      | .ok () => DataItem.processParts env d (w :: done) rest

/-- DataItem.set_value (lines 210-227): reject non-strings with ValueError
before touching any state, split the string, then convert and validate each
part in order.  The result is the post-call state paired with the raised
exception, if any. -/
def DataItem.set_value (env : PyEnv) (d : DataItem) (value : PyVal) :
    DataItem × Option PyError :=
  match value with
  | .str s => DataItem.processParts env d [] (DataItem.splitParts s)
  | v => (d, some (.valueNotString (DataItem.signature d.name) v))

/-- DataItem.get_values (lines 229-236): returns self._values (the
None-check in the source is a disabled no-op). -/
def DataItem.get_values (d : DataItem) : List PyVal :=
  d.values

/-- A keyword-argument value passed to DataItem(...): either a plain Python
value, a conversion callable (for str2type), a validation callable, or a
namespace object.  The model keeps the callables apart from PyVal because
PyVal does not embed functions. -/
inductive KwVal where
  | val (v : PyVal)
  | rule (r : Str2Type)
  | vfn (f : VFn)
  | ns (n : PyNamespace)

/-- The keyword arguments of a DataItem constructor call (Python forbids a
repeated keyword, so lookups read the first occurrence). -/
abbrev Kwargs : Type := List (String × KwVal)

/-- DataItem._legal_data (source line 34). -/
def legalData : List String :=
  ["name", "default", "unit", "help", "value", "str2type", "minmax",
   "options", "widget", "validator", "namespace", "user_data", "symbol"]

/-- First binding of a keyword. -/
def lookupKw (kwargs : Kwargs) (k : String) : Option KwVal :=
  (kwargs.find? (fun p => p.1 == k)).map (fun p => p.2)

/-- The keywords of a constructor call. -/
def keysOf (kwargs : Kwargs) : List String :=
  kwargs.map (fun p => p.1)

/-- A keyword value seen as a Python value; a callable or namespace object
is rendered opaquely. -/
def coerceVal : KwVal → PyVal
  | .val v => v
  | .rule _ => .other "callable"
  | .vfn _ => .other "callable"
  | .ns _ => .other "namespace"

/-- A keyword value installed as str2type: a callable is kept, anything
else is an object whose call raises TypeError. -/
def coerceRule : KwVal → Str2Type
  | .rule r => r
  | _ => .user (fun _ => .error { cls := .typeError, msg := "object is not callable" })

/-- The str2type inference of __init__ lines 59-79, keyed on the class of
the default value: the branches test, in source order, default is None,
isinstance(default, basestring), type(default) == bool,
type(default) in (tuple, list, dict), isinstance(default, numpy.ndarray),
type(default) in (float, int, complex), and fall through to eval. -/
def sourceSelect : PyVal → Str2Type
  | .none => .strRule
  | .str _ => .strRule
  | .bool _ => .str2boolRule
  | .tuple _ => .evalRule
  | .list _ => .evalRule
  | .dict _ => .evalRule
  | .ndarray _ => .ndarrayRule
  | .float _ => .ofType .tFloat
  | .int _ => .ofType .tInt
  | .complex _ _ => .ofType .tComplex
  | .other _ => .evalRule

/-- DataItem._check_validity_of_data (lines 86-115): minmax must be a
2-element list or tuple of numbers, options a list or tuple, help and
widget strings.  Every failing branch raises TypeError (see the checkError
doc comment for the two branches where the message formatting itself is
what raises). -/
def checkValidity (kwargs : Kwargs) : Except PyError Unit :=
  match lookupKw kwargs "minmax" with
  | some (.val (.list xs)) =>
    if xs.length ≠ 2 then .error (.checkError "minmax")
    else if xs.all (fun x => (asNum x).isSome) then checkOptions kwargs
    else .error (.checkError "minmax")
  | some (.val (.tuple xs)) =>
    if xs.length ≠ 2 then .error (.checkError "minmax")
    else if xs.all (fun x => (asNum x).isSome) then checkOptions kwargs
    else .error (.checkError "minmax")
  | some _ => .error (.checkError "minmax")
  | Option.none => checkOptions kwargs
where
  /-- The options and help/widget checks that follow the minmax check. -/
  checkOptions (kwargs : Kwargs) : Except PyError Unit :=
    match lookupKw kwargs "options" with
    | some (.val (.list _)) => checkStrings kwargs
    | some (.val (.tuple _)) => checkStrings kwargs
    | some _ => .error (.checkError "options")
    | Option.none => checkStrings kwargs
  /-- The help and widget string checks. -/
  checkStrings (kwargs : Kwargs) : Except PyError Unit :=
    match lookupKw kwargs "help" with
    | some (.val (.str _)) => checkWidget kwargs
    | some _ => .error (.checkError "help")
    | Option.none => checkWidget kwargs
  /-- The widget string check. -/
  checkWidget (kwargs : Kwargs) : Except PyError Unit :=
    match lookupKw kwargs "widget" with
    | some (.val (.str _)) => .ok ()
    | some _ => .error (.checkError "widget")
    | Option.none => .ok ()

/-- The minmax bounds stored in self.data, read back as a pair (the shape
is guaranteed by checkValidity when present). -/
def minmaxOf (kwargs : Kwargs) : Option (PyVal × PyVal) :=
  match lookupKw kwargs "minmax" with
  | some (.val (.list [a, b])) => some (a, b)
  | some (.val (.tuple [a, b])) => some (a, b)
  | _ => Option.none

/-- The options list stored in self.data. -/
def optionsOf (kwargs : Kwargs) : Option (List PyVal) :=
  match lookupKw kwargs "options" with
  | some (.val (.list xs)) => some xs
  | some (.val (.tuple xs)) => some xs
  | _ => Option.none

/-- The namespace stored in self.data. -/
def nspaceOf (kwargs : Kwargs) : Option PyNamespace :=
  match lookupKw kwargs "namespace" with
  | some (.ns n) => some n
  | some _ => some "namespace"
  | _ => Option.none

/-- The registered unit stored in self.data, rendered as the string the
unit library sees. -/
def unitOf (kwargs : Kwargs) : Option String :=
  (lookupKw kwargs "unit").map (fun kw => pyStr (coerceVal kw))

/-- The keyword dictionary after the None default insertion of
DataItem.__init__ lines 45-46. -/
def initKwargs (kwargs : Kwargs) : Kwargs :=
  if (keysOf kwargs).contains "default" then kwargs
  else kwargs ++ [("default", KwVal.val PyVal.none)]

/-- The default value stored in self.data after the None insertion. -/
def defaultOf (kwargs : Kwargs) : PyVal :=
  coerceVal ((lookupKw kwargs "default").getD (KwVal.val PyVal.none))

/-- The str2type stored in self.data: the supplied one, or the one
inferred from the class of the default value (lines 59-79). -/
def ruleOf (kwargs : Kwargs) : Str2Type :=
  match lookupKw kwargs "str2type" with
  | some kw => coerceRule kw
  | Option.none => sourceSelect (defaultOf kwargs)

/-- DataItem.__init__ (lines 40-84): require the name keyword, default the
default to None, reject any keyword outside _legal_data with ValueError,
infer str2type from the class of the default when it was not supplied,
check the attribute shapes, and initialise self._values to the one-element
default list with self._assigned_value False.  The validate key can never
be stored, since validate is not in _legal_data. -/
def DataItem.init (kwargs : Kwargs) : Except PyError DataItem :=
  match lookupKw kwargs "name" with
  | Option.none => .error .missingName
  | some nameKw =>
    match (initKwargs kwargs).find? (fun p => !(legalData.contains p.1)) with
    | some p => .error (.illegalArg (DataItem.signature (coerceVal nameKw)) p.1)
    | Option.none =>
      match checkValidity (initKwargs kwargs) with
      | .error e => .error e
      | .ok () =>
        .ok { name := coerceVal nameKw
              default := defaultOf (initKwargs kwargs)
              str2type := ruleOf (initKwargs kwargs)
              unit := unitOf (initKwargs kwargs)
              minmax := minmaxOf (initKwargs kwargs)
              options := optionsOf (initKwargs kwargs)
              nspace := nspaceOf (initKwargs kwargs)
              validate := Option.none
              values := [defaultOf (initKwargs kwargs)]
              assigned := false }

/-- The conversion-rule precedence exactly as claim C1 words it: an
explicitly supplied str2type override; otherwise a rule determined by the
type of the default value, namely str for a None or string default, the
boolean parser for a bool default, dynamic evaluation for list, tuple and
dict defaults, array evaluation for a numpy-array default, and the type
itself for int, float and complex defaults; otherwise generic dynamic
evaluation. -/
def claimedRule (override : Option Str2Type) (default : PyVal) : Str2Type :=
  match override with
  | some r => r
  | Option.none =>
    match default with
    | .none => .strRule
    | .str _ => .strRule
    | .bool _ => .str2boolRule
    | .list _ => .evalRule
    | .tuple _ => .evalRule
    | .dict _ => .evalRule
    | .ndarray _ => .ndarrayRule
    | .int _ => .ofType .tInt
    | .float _ => .ofType .tFloat
    | .complex _ _ => .ofType .tComplex
    | .other _ => .evalRule

/-- An item held in a SubTree.tree list: a reference to another SubTree
node (by creation index) or a DataItem-like leaf, which the add assertion
only requires to have a name. -/
inductive Entry where
  | node (i : Nat)
  | leaf (name : String)
deriving DecidableEq

/-- One SubTree object: its name, the parent reference set by the
constructor (never by add), and the ordered tree list built by add. -/
structure STNode where
  name : String
  parent : Option Nat
  tree : List Entry
deriving DecidableEq

/-- All SubTree objects created so far, indexed by creation order; a parent
reference is an index into this list. -/
abbrev Forest : Type := List STNode

/-- The operations of the SubTree interface: SubTree(name, parent=...) and
tree.add(item).  Python can only pass references to objects that already
exist, so an operation naming an index out of range does not correspond to
any Python program; the model makes such an operation a no-op. -/
inductive SOp where
  | mkTree (name : String) (parent : Option Nat)
  | add (target : Nat) (e : Entry)

/-- Whether an entry names only existing nodes. -/
def entryValid (n : Nat) : Entry → Bool
  | .node j => j < n
  | .leaf _ => true

/-- Apply one SubTree operation.  SubTree.__init__ (lines 7-10) records
name and parent and starts with an empty tree list; SubTree.add (lines
12-16) appends to the tree list of the target and touches nothing else
(in particular it does not set the parent of the added item). -/
def applyOp (f : Forest) : SOp → Forest
  | .mkTree n p =>
    match p with
    | Option.none => f ++ [{ name := n, parent := Option.none, tree := [] }]
    | some i => if i < f.length then f ++ [{ name := n, parent := some i, tree := [] }] else f
  | .add t e =>
    match f.get? t with
    | some tgt =>
      if entryValid f.length e then f.set t { tgt with tree := tgt.tree ++ [e] } else f
    | Option.none => f

/-- The forest reached by a sequence of constructor and add calls. -/
def buildForest (ops : List SOp) : Forest :=
  ops.foldl applyOp []

/-- SubTree.get_parent (lines 18-23): ValueError on a node whose parent
reference is None, otherwise the parent. -/
def get_parent (f : Forest) (i : Nat) : Except PyError Nat :=
  match f.get? i with
  | some nd =>
    match nd.parent with
    | Option.none => .error (.rootNoParent nd.name)
    | some j => .ok j
  | Option.none => .error (.external { cls := .otherError, msg := "no such node" })

/-- SubTree.__iter__ (lines 25-27): yield the tree list in order. -/
def iterItems (f : Forest) (i : Nat) : List Entry :=
  match f.get? i with
  | some nd => nd.tree
  | Option.none => []

/-- Whether every operation is executable by a Python program at the point
it occurs: each named index refers to an already-created object.  n is the
number of nodes created so far. -/
def opsValid : Nat → List SOp → Bool
  | _, [] => true
  | n, .mkTree _ p :: rest =>
    (match p with | some i => decide (i < n) | Option.none => true) && opsValid (n + 1) rest
  | n, .add t e :: rest => decide (t < n) && entryValid n e && opsValid n rest

/-- The entries passed to add with a given target, in order. -/
def addsTo (i : Nat) (ops : List SOp) : List Entry :=
  ops.filterMap (fun op =>
    match op with
    | .add t e => if t = i then some e else Option.none
    | _ => Option.none)

/-- Whether a string is a nonempty run of decimal digits. -/
def allDigits (s : String) : Bool :=
  !s.isEmpty && s.toList.all Char.isDigit

/-- The natural number denoted by a digit run. -/
def natOfDigits (s : String) : Nat :=
  s.toList.foldl (fun a c => a * 10 + (c.toNat - 48)) 0

/-- Metres per unit for the three length units the concrete environment
knows, matching the SI table of the Scientific library, as a numerator and
denominator pair. -/
def metersPer (u : String) : Int × Int :=
  if u == "cm" then (1, 100) else if u == "km" then (1000, 1) else (1, 1)

/-- A concrete environment for closed evaluations.  Each field agrees with
CPython 2 (and with the Scientific units library) on every input the
closed theorems evaluate it at: the integer literals parse to their value
under eval, float and int exactly as in CPython; eval fails on the
non-literal strings used; float and int fail on non-numeric strings as in
CPython; PhysicalQuantity parses a digit run followed by a unit token; cm,
m and km are mutually compatible length units and mass units are not
compatible with them; conversion multiplies by the ratio of the metre
factors. -/
def env0 : PyEnv where
  evalG := fun s =>
    if allDigits s then .ok (.int (natOfDigits s))
    else .error { cls := .syntaxError, msg := "invalid syntax" }
  evalIn := fun _ s =>
    if allDigits s then .ok (.int (natOfDigits s))
    else .error { cls := .nameError, msg := "name is not defined" }
  parseFloat := fun s =>
    if allDigits s then .ok ((natOfDigits s : Int) : Rat)
    else .error { cls := .valueError, msg := "could not convert string to float" }
  parseInt := fun s =>
    if allDigits s then .ok (natOfDigits s)
    else .error { cls := .valueError, msg := "invalid literal for int() with base 10" }
  parseComplex := fun _ =>
    .error { cls := .valueError, msg := "complex() arg is a malformed string" }
  asarray := fun v =>
    .ok (.ndarray (match v with | .list xs => xs | .tuple xs => xs | w => [w]))
  pqParse := fun s =>
    match matchNumberWithUnit s with
    | some (n, u) =>
      if allDigits n then .ok { value := ((natOfDigits n : Int) : Rat), unitName := u }
      else .error { cls := .typeError, msg := "malformed physical quantity" }
    | Option.none => .error { cls := .typeError, msg := "malformed physical quantity" }
  isCompatible := fun a b =>
    (["m", "cm", "km"].contains a && ["m", "cm", "km"].contains b) || a == b
  convertTo := fun q u =>
    let a := metersPer q.unitName
    let b := metersPer u
    { value := Rat.divInt (q.value.num * a.1 * b.2) ((q.value.den : Int) * a.2 * b.1)
      unitName := u }

/-- A dummy DataItem used only as the unreachable fallback of itemOf. -/
def fallbackItem : DataItem :=
  { name := .none, default := .none, str2type := .strRule, unit := Option.none,
    minmax := Option.none, options := Option.none, nspace := Option.none,
    validate := Option.none, values := [], assigned := false }

/-- The DataItem built by a constructor call that is known to succeed. -/
def itemOf (kwargs : Kwargs) : DataItem :=
  match DataItem.init kwargs with
  | .ok d => d
  | .error _ => fallbackItem

/-- Constructor call DataItem(name=Q, default=1.0, minmax=[0, 2]). -/
def c3kwargs : Kwargs :=
  [("name", .val (.str "Q")), ("default", .val (.float 1)),
   ("minmax", .val (.list [.int 0, .int 2]))]

/-- The data item of the C3 evaluation. -/
def c3item : DataItem := itemOf c3kwargs

/-- C3: the claim says an out-of-range value makes set_value raise a
descriptive value error.  The code instead raises NameError: the minmax
branch of _validate names the undefined class DataItmValueError (line 162),
a typo for DataItemValueError.  On the item DataItem(name=Q, default=1.0,
minmax=[0, 2]), set_value(5) converts 5 to the float 5.0, which lies
outside [0, 2], and the raised exception is NameError, which is neither a
DataItemValueError nor a ValueError. -/
theorem minmax_violation_raises_nameerror :
    (DataItem.init c3kwargs).isOk = true ∧
    c3item.minmax = some (.int 0, .int 2) ∧
    DataItem.process_value env0 c3item "5" = .ok (.float 5) ∧
    (DataItem.set_value env0 c3item (.str "5")).2 = some (.nameErr "DataItmValueError") ∧
    (PyError.nameErr "DataItmValueError").pyClass = .nameError ∧
    PyClass.nameError ≠ PyClass.dataItemValueError ∧
    PyClass.nameError ≠ PyClass.valueError := by
  refine ⟨rfl, rfl, rfl, rfl, rfl, ?_, ?_⟩ <;> decide

/-- C9: set_value rejects every non-string argument with ValueError, before
any state change: the returned state is the unchanged item. -/
theorem set_value_rejects_nonstring (env : PyEnv) (d : DataItem) (v : PyVal)
    (h : ∀ t, v ≠ .str t) :
    DataItem.set_value env d v = (d, some (.valueNotString (DataItem.signature d.name) v)) ∧
    (PyError.valueNotString (DataItem.signature d.name) v).pyClass = .valueError ∧
    DataItem.get_values (DataItem.set_value env d v).1 = DataItem.get_values d := by
  cases v with
  | str t => exact absurd rfl (h t)
  | none => exact ⟨rfl, rfl, rfl⟩
  | bool b => exact ⟨rfl, rfl, rfl⟩
  | int n => exact ⟨rfl, rfl, rfl⟩
  | float q => exact ⟨rfl, rfl, rfl⟩
  | complex re im => exact ⟨rfl, rfl, rfl⟩
  | list xs => exact ⟨rfl, rfl, rfl⟩
  | tuple xs => exact ⟨rfl, rfl, rfl⟩
  | dict entries => exact ⟨rfl, rfl, rfl⟩
  | ndarray xs => exact ⟨rfl, rfl, rfl⟩
  | other tag => exact ⟨rfl, rfl, rfl⟩

/-- Constructor call DataItem(name=A, default=1.0), the minimal item of
the source test suite. -/
def c9kwargs : Kwargs :=
  [("name", .val (.str "A")), ("default", .val (.float 1))]

/-- The data item of the C9 witness. -/
def c9item : DataItem := itemOf c9kwargs

/-- Witness for C9: set_value(2) on DataItem(name=A, default=1.0) raises
ValueError and leaves the stored default untouched. -/
theorem set_value_rejects_nonstring_witness :
    DataItem.set_value env0 c9item (.int 2)
      = (c9item, some (.valueNotString (DataItem.signature c9item.name) (.int 2))) ∧
    DataItem.get_values (DataItem.set_value env0 c9item (.int 2)).1 = [.float 1] :=
  ⟨(set_value_rejects_nonstring env0 c9item (.int 2)
      (fun _ h => PyVal.noConfusion h)).1, rfl⟩

/-- On a run of the set_value loop that raises nothing, the final values
are the converted, validated parts appended to the already-done prefix,
and the assigned flag is set. -/
theorem processParts_ok (env : PyEnv) (d : DataItem) (ps : List String) :
    ∀ (done : List PyVal) (d2 : DataItem),
      DataItem.processParts env d done ps = (d2, Option.none) →
      ∃ ws, ps.mapM (DataItem.process_value env d) = .ok ws ∧
        (∀ w ∈ ws, DataItem.runValidate d w = .ok ()) ∧
        d2 = { d with values := done.reverse ++ ws, assigned := true } := by
  induction ps with
  | nil =>
    intro done d2 h
    simp only [DataItem.processParts, Prod.mk.injEq] at h
    refine ⟨[], rfl, by simp, ?_⟩
    rw [← h.1]
    simp
  | cons p rest ih =>
    intro done d2 h
    rw [DataItem.processParts] at h
    cases hp : DataItem.process_value env d p with
    | error e => rw [hp] at h; simp only [Prod.mk.injEq] at h; exact absurd h.2 (by simp)
    | ok w =>
      rw [hp] at h
      dsimp only at h
      cases hv : DataItem.runValidate d w with
      | error e => rw [hv] at h; simp only [Prod.mk.injEq] at h; exact absurd h.2 (by simp)
      | ok u =>
        cases u
        rw [hv] at h
        obtain ⟨ws, hmap, hval, hd2⟩ := ih (w :: done) d2 h
        refine ⟨w :: ws, ?_, ?_, ?_⟩
        · simp only [List.mapM_cons, hp, hmap]
          rfl
        · intro x hx
          rcases List.mem_cons.mp hx with hx | hx
          · rw [hx]; exact hv
          · exact hval x hx
        · rw [hd2]
          simp

/-- On a run of the set_value loop that raises, the final values are the
converted prefix followed by the raw remaining parts, the assigned flag is
untouched, and the exception came from converting or validating the first
remaining part. -/
theorem processParts_err (env : PyEnv) (d : DataItem) (ps : List String) :
    ∀ (done : List PyVal) (d2 : DataItem) (e : PyError),
      DataItem.processParts env d done ps = (d2, some e) →
      ∃ pre p suf ws, ps = pre ++ p :: suf ∧
        pre.mapM (DataItem.process_value env d) = .ok ws ∧
        (∀ w ∈ ws, DataItem.runValidate d w = .ok ()) ∧
        d2 = { d with values := done.reverse ++ ws ++ (p :: suf).map PyVal.str } ∧
        (DataItem.process_value env d p = .error e ∨
          ∃ w, DataItem.process_value env d p = .ok w ∧
            DataItem.runValidate d w = .error e) := by
  induction ps with
  | nil =>
    intro done d2 e h
    simp only [DataItem.processParts, Prod.mk.injEq] at h
    exact absurd h.2 (by simp)
  | cons p rest ih =>
    intro done d2 e h
    rw [DataItem.processParts] at h
    cases hp : DataItem.process_value env d p with
    | error e0 =>
      rw [hp] at h
      simp only [Prod.mk.injEq, Option.some.injEq] at h
      refine ⟨[], p, rest, [], rfl, rfl, by simp, ?_, ?_⟩
      · rw [← h.1]; simp
      · exact Or.inl (h.2 ▸ hp)
    | ok w =>
      rw [hp] at h
      dsimp only at h
      cases hv : DataItem.runValidate d w with
      | error e0 =>
        rw [hv] at h
        simp only [Prod.mk.injEq, Option.some.injEq] at h
        refine ⟨[], p, rest, [], rfl, rfl, by simp, ?_, ?_⟩
        · rw [← h.1]; simp
        · exact Or.inr ⟨w, hp, h.2 ▸ hv⟩
      | ok u =>
        cases u
        rw [hv] at h
        obtain ⟨pre, p2, suf, ws, hsplit, hmap, hval, hd2, hlast⟩ := ih (w :: done) d2 e h
        refine ⟨p :: pre, p2, suf, w :: ws, by rw [hsplit]; simp, ?_, ?_, ?_, hlast⟩
        · simp only [List.mapM_cons, hp, hmap]
          rfl
        · intro x hx
          rcases List.mem_cons.mp hx with hx | hx
          · rw [hx]; exact hv
          · exact hval x hx
        · rw [hd2]
          simp

/-- C2: after a successful set_value, the stored values returned by
get_values are exactly the conversion results of the ampersand-separated,
stripped parts of the assigned string, in order, each one passing
validation; a string with no ampersand is processed as the single
unstripped part.  The values therefore derive entirely from this most
recent assignment. -/
theorem set_value_stores_converted_parts (env : PyEnv) (d d2 : DataItem) (s : String)
    (h : DataItem.set_value env d (.str s) = (d2, Option.none)) :
    (DataItem.splitParts s).mapM (DataItem.process_value env d)
      = .ok (DataItem.get_values d2) ∧
    (∀ w ∈ DataItem.get_values d2, DataItem.runValidate d w = .ok ()) ∧
    d2.assigned = true ∧
    (s.toList.any (fun c => c == '&') = false → DataItem.splitParts s = [s]) := by
  have h2 : DataItem.processParts env d [] (DataItem.splitParts s) = (d2, Option.none) := h
  obtain ⟨ws, hmap, hval, hd2⟩ := processParts_ok env d _ [] d2 h2
  have hv : DataItem.get_values d2 = ws := by
    rw [hd2]; simp [DataItem.get_values]
  refine ⟨by rw [hv]; exact hmap, by rw [hv]; exact hval, by rw [hd2], ?_⟩
  intro hamp
  unfold DataItem.splitParts
  rw [hamp]
  simp

/-- Constructor call DataItem(name=V, default=1.0). -/
def c2kwargs : Kwargs :=
  [("name", .val (.str "V")), ("default", .val (.float 1))]

/-- The data item of the C2 witness. -/
def c2item : DataItem := itemOf c2kwargs

/-- The state after assigning the string 2 to the C2 item. -/
def c2post : DataItem := (DataItem.set_value env0 c2item (.str "2")).1

/-- Witness for C2: assigning 2 to DataItem(name=V, default=1.0) succeeds,
stores the float 2.0, and that stored list is the conversion of the single
part. -/
theorem set_value_stores_converted_parts_witness :
    DataItem.get_values c2post = [.float 2] ∧
    (DataItem.splitParts "2").mapM (DataItem.process_value env0 c2item)
      = .ok (DataItem.get_values c2post) :=
  ⟨rfl, (set_value_stores_converted_parts env0 c2item c2post "2" rfl).1⟩

/-- Constructor call DataItem(name=A, default=1.0) for the C6 evaluation. -/
def c6kwargs : Kwargs :=
  [("name", .val (.str "A")), ("default", .val (.float 1))]

/-- The data item of the C6 evaluation. -/
def c6item : DataItem := itemOf c6kwargs

/-- C6 as stated is false: on DataItem(name=A, default=1.0) the assignment
set_value(abc) raises (float(abc) fails), yet get_values afterwards
returns the raw string abc instead of the prior value 1.0, because
set_value overwrites self._values with the raw parts before converting. -/
theorem set_value_error_overwrites_values :
    DataItem.get_values c6item = [.float 1] ∧
    ((DataItem.set_value env0 c6item (.str "abc")).2).isSome = true ∧
    DataItem.get_values (DataItem.set_value env0 c6item (.str "abc")).1 = [.str "abc"] ∧
    [PyVal.str "abc"] ≠ [PyVal.float 1] := by
  refine ⟨rfl, rfl, rfl, by simp⟩

/-- C6 amended: when set_value(s) raises a conversion or validation error,
the stored values are not the prior values; they become the already
converted and validated prefix of the parts of s followed by the failing
part and the remaining parts as raw stripped strings, with the assigned
flag untouched.  Only the initial non-string ValueError leaves the stored
values unchanged. -/
theorem set_value_error_state (env : PyEnv) (d d2 : DataItem) (e : PyError) (s : String)
    (h : DataItem.set_value env d (.str s) = (d2, some e)) :
    ∃ pre p suf ws, DataItem.splitParts s = pre ++ p :: suf ∧
      pre.mapM (DataItem.process_value env d) = .ok ws ∧
      (∀ w ∈ ws, DataItem.runValidate d w = .ok ()) ∧
      DataItem.get_values d2 = ws ++ (p :: suf).map PyVal.str ∧
      d2.assigned = d.assigned ∧
      (DataItem.process_value env d p = .error e ∨
        ∃ w, DataItem.process_value env d p = .ok w ∧
          DataItem.runValidate d w = .error e) := by
  have h2 : DataItem.processParts env d [] (DataItem.splitParts s) = (d2, some e) := h
  obtain ⟨pre, p, suf, ws, hsplit, hmap, hval, hd2, hlast⟩ :=
    processParts_err env d _ [] d2 e h2
  refine ⟨pre, p, suf, ws, hsplit, hmap, hval, ?_, by rw [hd2], hlast⟩
  rw [hd2]
  simp [DataItem.get_values]

/-- The post-failure state of the C6 evaluation. -/
def c6post : DataItem := (DataItem.set_value env0 c6item (.str "abc")).1

/-- The exception raised by the C6 evaluation: the TypeError wrapping the
failed float conversion. -/
def c6err : PyError :=
  .str2typeError (.ofType .tFloat) (.s "abc")
    { cls := .valueError, msg := "could not convert string to float" }

/-- Witness for the amended C6: the failing assignment of abc leaves the
raw part as the stored values. -/
theorem set_value_error_state_witness :
    ∃ pre p suf ws, DataItem.splitParts "abc" = pre ++ p :: suf ∧
      pre.mapM (DataItem.process_value env0 c6item) = .ok ws ∧
      (∀ w ∈ ws, DataItem.runValidate c6item w = .ok ()) ∧
      DataItem.get_values c6post = ws ++ (p :: suf).map PyVal.str ∧
      c6post.assigned = c6item.assigned ∧
      (DataItem.process_value env0 c6item p = .error c6err ∨
        ∃ w, DataItem.process_value env0 c6item p = .ok w ∧
          DataItem.runValidate c6item w = .error c6err) :=
  set_value_error_state env0 c6item c6post c6err "abc" rfl

/-- An assignment string with no ampersand is processed as the one
unstripped part. -/
theorem set_value_single_part (env : PyEnv) (d : DataItem) (s : String)
    (hamp : s.toList.any (fun c => c == '&') = false) :
    DataItem.set_value env d (.str s) = DataItem.processParts env d [] [s] := by
  show DataItem.processParts env d [] (DataItem.splitParts s) = _
  unfold DataItem.splitParts
  rw [hamp]
  simp

/-- A conversion failure on a one-part assignment string is the exception
set_value raises. -/
theorem set_value_single_err (env : PyEnv) (d : DataItem) (s : String) (e : PyError)
    (hamp : s.toList.any (fun c => c == '&') = false)
    (hp : DataItem.process_value env d s = .error e) :
    (DataItem.set_value env d (.str s)).2 = some e := by
  rw [set_value_single_part env d s hamp]
  rw [DataItem.processParts, hp]

/-- Constructor call DataItem(name=U, default=[1]), whose inferred
conversion rule is eval. -/
def c5kwargs : Kwargs :=
  [("name", .val (.str "U")), ("default", .val (.list [.int 1]))]

/-- The data item of the C5 evaluation. -/
def c5item : DataItem := itemOf c5kwargs

/-- C5 as stated is false: on DataItem(name=U, default=[1]) the conversion
rule is eval, and assigning the string junk( makes eval fail, yet
set_value raises nothing: the except-pass of _process_value (line 144)
swallows the failure and stores the raw string. -/
theorem eval_failure_swallowed :
    c5item.str2type = .evalRule ∧
    c5item.nspace = Option.none ∧
    (env0.evalG "junk(").isOk = false ∧
    (DataItem.set_value env0 c5item (.str "junk(")).2 = Option.none ∧
    DataItem.get_values (DataItem.set_value env0 c5item (.str "junk(")).1
      = [.str "junk("] :=
  ⟨rfl, rfl, rfl, rfl, rfl⟩

/-- C5 amended: a failing conversion raises the descriptive TypeError
carrying the converter, the value and the underlying exception exactly
when the conversion rule is neither a string class nor eval (the generic
branch modelled by rawConvert); a failure of bare eval is swallowed and
the raw string kept; a failure of eval under a registered namespace
propagates the underlying exception unwrapped. -/
theorem str2type_failure_wrapping (env : PyEnv) (d : DataItem) (v : UVal) :
    (∀ rule e, rawConvert env rule v = some (.error e) →
      DataItem.applyStr2Type env d rule v = .error (.str2typeError rule v e) ∧
      (PyError.str2typeError rule v e).pyClass = .typeError) ∧
    (∀ t, v = .s t → d.nspace = Option.none → (env.evalG t).isOk = false →
      DataItem.applyStr2Type env d .evalRule v = .ok (.str t)) ∧
    (∀ ns t e2, v = .s t → d.nspace = some ns → env.evalIn ns t = .error e2 →
      DataItem.applyStr2Type env d .evalRule v = .error (.external e2)) := by
  refine ⟨?_, ?_, ?_⟩
  · intro rule e h
    cases rule with
    | strRule => exact absurd h (by simp [rawConvert])
    | evalRule => exact absurd h (by simp [rawConvert])
    | str2boolRule =>
      refine ⟨?_, rfl⟩
      unfold DataItem.applyStr2Type
      dsimp only
      rw [h]
    | ndarrayRule =>
      refine ⟨?_, rfl⟩
      unfold DataItem.applyStr2Type
      dsimp only
      rw [h]
    | ofType t =>
      refine ⟨?_, rfl⟩
      unfold DataItem.applyStr2Type
      dsimp only
      rw [h]
    | user f =>
      refine ⟨?_, rfl⟩
      unfold DataItem.applyStr2Type
      dsimp only
      rw [h]
  · intro t hv hns hE
    subst hv
    simp only [DataItem.applyStr2Type, hns]
    cases hE2 : env.evalG t with
    | ok w => rw [hE2] at hE; exact Bool.noConfusion hE
    | error e2 => rfl
  · intro ns t e2 hv hns hE
    subst hv
    simp only [DataItem.applyStr2Type, hns, hE]

/-- Witness for the amended C5: the float class applied to the string abc
fails, and _process_value wraps it into the descriptive TypeError. -/
theorem str2type_failure_wrapping_witness :
    DataItem.applyStr2Type env0 c5item (.ofType .tFloat) (.s "abc")
      = .error (.str2typeError (.ofType .tFloat) (.s "abc")
          { cls := .valueError, msg := "could not convert string to float" }) :=
  ((str2type_failure_wrapping env0 c5item (.s "abc")).1
    (.ofType .tFloat)
    { cls := .valueError, msg := "could not convert string to float" } rfl).1

/-- Constructor call DataItem(name=n, default=2, unit=m): an integer item
with a registered unit, whose inferred conversion rule is int. -/
def c4kwargs : Kwargs :=
  [("name", .val (.str "n")), ("default", .val (.int 2)),
   ("unit", .val (.str "m"))]

/-- The data item of the C4 evaluation. -/
def c4item : DataItem := itemOf c4kwargs

/-- C4 as stated is false on its first branch: on DataItem(name=n,
default=2, unit=m), the assignment 250 cm is unit-normalized to the float
2.5, but the stored value is the conversion rule int applied to that
float, the truncated integer 2, not the converted float. -/
theorem unit_conversion_not_stored_as_float :
    c4item.unit = some "m" ∧
    DataItem.handle_unit_conversion env0 c4item "250 cm" = .ok (.f (Rat.divInt 5 2)) ∧
    Rat.divInt 5 2 = (5 : Rat) / 2 ∧
    (DataItem.set_value env0 c4item (.str "250 cm")).2 = Option.none ∧
    DataItem.get_values (DataItem.set_value env0 c4item (.str "250 cm")).1
      = [.int 2] ∧
    PyVal.int 2 ≠ PyVal.float ((5 : Rat) / 2) := by
  refine ⟨rfl, rfl, ?_, rfl, rfl, by simp⟩
  rw [Rat.divInt_eq_div]
  norm_num

/-- C4 amended: unit normalization itself behaves as the claim says, and
the stored value is then the conversion rule applied to the normalized
float.  A string that matches the number-with-unit pattern, parsed as a
quantity q, against a registered unit u: if u equals the unit of q the
normalized value is the float value of q; if it differs but is
compatible, the normalized value is the float value converted to u; if it
is incompatible, a descriptive DataItemValueError is raised, and on a
one-part assignment string set_value raises exactly that error.  A string
that does not match the pattern passes through unchanged. -/
theorem unit_conversion_amended (env : PyEnv) (d : DataItem) (s : String) :
    ((matchNumberWithUnit s).isSome = false →
      DataItem.handle_unit_conversion env d s = .ok (.s s)) ∧
    (∀ q u, (matchNumberWithUnit s).isSome = true → env.pqParse s = .ok q →
      d.unit = some u →
      ((u == q.unitName) = true →
        DataItem.handle_unit_conversion env d s = .ok (.f q.value)) ∧
      ((u == q.unitName) = false → env.isCompatible q.unitName u = true →
        DataItem.handle_unit_conversion env d s
          = .ok (.f (env.convertTo q u).value)) ∧
      ((u == q.unitName) = false → env.isCompatible q.unitName u = false →
        DataItem.handle_unit_conversion env d s
          = .error (.unitIncompatible (DataItem.signature d.name) s q.unitName u) ∧
        (PyError.unitIncompatible (DataItem.signature d.name) s q.unitName u).pyClass
          = .dataItemValueError)) ∧
    (∀ q u, s.toList.any (fun c => c == '&') = false →
      (matchNumberWithUnit s).isSome = true → env.pqParse s = .ok q →
      d.unit = some u → (u == q.unitName) = false →
      env.isCompatible q.unitName u = false →
      (DataItem.set_value env d (.str s)).2
        = some (.unitIncompatible (DataItem.signature d.name) s q.unitName u)) := by
  have hbranch : ∀ q u, (matchNumberWithUnit s).isSome = true →
      env.pqParse s = .ok q → d.unit = some u →
      DataItem.handle_unit_conversion env d s
        = (if u == q.unitName then .ok (.f q.value)
           else if env.isCompatible q.unitName u then
             .ok (.f (env.convertTo q u).value)
           else
             .error (.unitIncompatible (DataItem.signature d.name) s q.unitName u)) := by
    intro q u hm hq hu
    unfold DataItem.handle_unit_conversion
    cases hmm : matchNumberWithUnit s with
    | none => rw [hmm] at hm; exact Bool.noConfusion hm
    | some g => rw [hq, hu]
  refine ⟨?_, ?_, ?_⟩
  · intro hm
    unfold DataItem.handle_unit_conversion
    cases hmm : matchNumberWithUnit s with
    | none => rfl
    | some g => rw [hmm] at hm; exact Bool.noConfusion hm
  · intro q u hm hq hu
    refine ⟨?_, ?_, ?_⟩
    · intro heq
      rw [hbranch q u hm hq hu, if_pos heq]
    · intro hne hcomp
      rw [hbranch q u hm hq hu, if_neg (by simp [hne]), if_pos hcomp]
    · intro hne hcomp
      refine ⟨?_, rfl⟩
      rw [hbranch q u hm hq hu, if_neg (by simp [hne]), if_neg (by simp [hcomp])]
  · intro q u hamp hm hq hu hne hcomp
    have hh : DataItem.handle_unit_conversion env d s
        = .error (.unitIncompatible (DataItem.signature d.name) s q.unitName u) := by
      rw [hbranch q u hm hq hu, if_neg (by simp [hne]), if_neg (by simp [hcomp])]
    have hpe : DataItem.process_value env d s
        = .error (.unitIncompatible (DataItem.signature d.name) s q.unitName u) := by
      unfold DataItem.process_value
      rw [hh]
    exact set_value_single_err env d s _ hamp hpe

/-- Witness for the amended C4: on the C4 item, 250 cm is normalized by
converting 250 from cm to the registered m, and 5.2 kg is rejected with
the descriptive unit-incompatibility error. -/
theorem unit_conversion_amended_witness :
    DataItem.handle_unit_conversion env0 c4item "250 cm"
      = .ok (.f (env0.convertTo { value := ((250 : Int) : Rat), unitName := "cm" } "m").value) ∧
    (DataItem.set_value env0 c4item (.str "52 kg")).2
      = some (.unitIncompatible (DataItem.signature c4item.name) "52 kg" "kg" "m") :=
  ⟨((unit_conversion_amended env0 c4item "250 cm").2.1
      { value := ((250 : Int) : Rat), unitName := "cm" } "m" rfl rfl rfl).2.1 rfl rfl,
   (unit_conversion_amended env0 c4item "52 kg").2.2
      { value := ((52 : Int) : Rat), unitName := "kg" } "m" rfl rfl rfl rfl rfl rfl⟩

/-- Every parent reference in the forest points to an earlier-created
node: this rules out cycles, and following parent links strictly
descends until a parentless node is reached. -/
def parentsEarlier (f : Forest) : Prop :=
  ∀ i nd j, f.get? i = some nd → nd.parent = some j → j < i

/-- One constructor or add call preserves the parent ordering: the
constructor only accepts an already-existing parent, and add never
touches parent references. -/
theorem parentsEarlier_applyOp (f : Forest) (op : SOp) (h : parentsEarlier f) :
    parentsEarlier (applyOp f op) := by
  cases op with
  | mkTree n p =>
    have hgen : ∀ x : STNode,
        (∀ j, x.parent = some j → j < f.length) →
        parentsEarlier (f ++ [x]) := by
      intro x hx i nd j hget hpar
      rcases Nat.lt_or_ge i f.length with hi | hle
      · rw [List.get?_append hi] at hget
        exact h i nd j hget hpar
      · rw [List.get?_append_right hle] at hget
        cases hd : (i - f.length) with
        | zero =>
          rw [hd] at hget
          have hnd : nd = x := by
            simpa using hget.symm
          have hj : j < f.length := hx j (hnd ▸ hpar)
          omega
        | succ k =>
          rw [hd] at hget
          simp at hget
    cases p with
    | none =>
      show parentsEarlier (f ++ [{ name := n, parent := Option.none, tree := [] }])
      exact hgen _ (fun j hj => by simp at hj)
    | some i0 =>
      show parentsEarlier
        (if i0 < f.length then f ++ [{ name := n, parent := some i0, tree := [] }] else f)
      by_cases hi0 : i0 < f.length
      · rw [if_pos hi0]
        refine hgen _ (fun j hj => ?_)
        have : i0 = j := by simpa using hj
        omega
      · rw [if_neg hi0]
        exact h
  | add t e =>
    show parentsEarlier
      (match f.get? t with
        | some tgt =>
          if entryValid f.length e then f.set t { tgt with tree := tgt.tree ++ [e] } else f
        | Option.none => f)
    cases hget : f.get? t with
    | none => exact h
    | some tgt =>
      dsimp only
      by_cases hv : entryValid f.length e = true
      · rw [if_pos hv]
        intro i nd j hg hpar
        by_cases hti : t = i
        · subst hti
          rcases Nat.lt_or_ge t f.length with ht | ht
          · rw [List.get?_set_eq_of_lt _ ht] at hg
            have hnd : nd = { tgt with tree := tgt.tree ++ [e] } := by
              simpa using hg.symm
            exact h t tgt j hget (by rw [hnd] at hpar; exact hpar)
          · rw [List.get?_len_le (by simpa using ht)] at hg
            exact Option.noConfusion hg
        · rw [List.get?_set_ne _ _ hti] at hg
          exact h i nd j hg hpar
      · rw [if_neg hv]
        exact h

/-- The parent ordering holds in every forest built by a sequence of
constructor and add calls. -/
theorem parentsEarlier_foldl (ops : List SOp) :
    ∀ f : Forest, parentsEarlier f → parentsEarlier (List.foldl applyOp f ops) := by
  induction ops with
  | nil => intro f h; exact h
  | cons op rest ih => intro f h; exact ih _ (parentsEarlier_applyOp f op h)

/-- C7 amended: in every forest built through the constructor and add,
parent links point strictly backwards in creation order, so parent chains
are cycle-free and terminate at a parentless node; get_parent returns the
parent exactly for nodes holding one and raises ValueError exactly on
nodes whose parent reference is None.  Such parentless nodes are the
constructed roots, but they can also be non-root children, because add
does not establish the parent link (see the counterexample). -/
theorem subtree_parent_links (ops : List SOp) :
    (∀ i nd j, (buildForest ops).get? i = some nd → nd.parent = some j → j < i) ∧
    (∀ i nd, (buildForest ops).get? i = some nd →
      (nd.parent = Option.none →
        get_parent (buildForest ops) i = .error (.rootNoParent nd.name)) ∧
      (∀ j, nd.parent = some j → get_parent (buildForest ops) i = .ok j)) := by
  constructor
  · exact parentsEarlier_foldl ops [] (by intro i nd j hg _; simp at hg)
  · intro i nd hget
    constructor
    · intro hp
      unfold get_parent
      rw [hget]
      dsimp only
      rw [hp]
    · intro j hp
      unfold get_parent
      rw [hget]
      dsimp only
      rw [hp]

/-- The operations of the C7 counterexample: m1 = SubTree(main);
m2 = SubTree(sub), with no parent argument; m1.add(m2). -/
def c7ops : List SOp :=
  [.mkTree "main" Option.none, .mkTree "sub" Option.none, .add 0 (.node 1)]

/-- C7 as stated is false: after m1 = SubTree(main); m2 = SubTree(sub);
m1.add(m2), the node sub is a direct child of main (it appears in the
iteration of main), hence not the root, yet get_parent on it raises the
root ValueError, because add does not set the parent link. -/
theorem addChild_get_parent_fails :
    iterItems (buildForest c7ops) 0 = [.node 1] ∧
    (buildForest c7ops).get? 1 = some { name := "sub", parent := Option.none, tree := [] } ∧
    get_parent (buildForest c7ops) 1 = .error (.rootNoParent "sub") :=
  ⟨rfl, rfl, rfl⟩

/-- The operations of the C7 witness: a root and a child constructed with
its parent argument. -/
def c7wops : List SOp :=
  [.mkTree "root" Option.none, .mkTree "child" (some 0)]

/-- Witness for the amended C7: the constructed child's parent link points
to the earlier root, and get_parent follows it while failing on the root. -/
theorem subtree_parent_links_witness :
    (0 < 1) ∧
    get_parent (buildForest c7wops) 1 = .ok 0 ∧
    get_parent (buildForest c7wops) 0 = .error (.rootNoParent "root") :=
  ⟨(subtree_parent_links c7wops).1 1 { name := "child", parent := some 0, tree := [] } 0 rfl rfl,
   ((subtree_parent_links c7wops).2 1 { name := "child", parent := some 0, tree := [] } rfl).2 0 rfl,
   ((subtree_parent_links c7wops).2 0 { name := "root", parent := Option.none, tree := [] } rfl).1 rfl⟩

/-- Appending a fresh node with an empty tree list changes no node's
iteration. -/
theorem iterItems_append (f : Forest) (x : STNode) (hx : x.tree = []) (i : Nat) :
    iterItems (f ++ [x]) i = iterItems f i := by
  unfold iterItems
  rcases Nat.lt_or_ge i f.length with hi | hle
  · rw [List.get?_append hi]
  · rw [List.get?_append_right hle, List.get?_len_le hle]
    cases hd : (i - f.length) with
    | zero => simp [hx]
    | succ k => simp

/-- Running the operation list from any forest appends to each node's
iteration exactly the entries added to it, provided every operation is
executable when it occurs. -/
theorem iter_foldl (ops : List SOp) :
    ∀ f : Forest, opsValid f.length ops = true →
      ∀ i, iterItems (List.foldl applyOp f ops) i = iterItems f i ++ addsTo i ops := by
  induction ops with
  | nil =>
    intro f h i
    simp [addsTo]
  | cons op rest ih =>
    intro f h i
    cases op with
    | mkTree n p =>
      simp only [opsValid, Bool.and_eq_true] at h
      obtain ⟨h1, h2⟩ := h
      have happ : applyOp f (.mkTree n p) = f ++ [({ name := n, parent := p, tree := [] } : STNode)] := by
        cases p with
        | none => rfl
        | some i0 =>
          have hvp : i0 < f.length := by simpa using h1
          show (if i0 < f.length then f ++ [{ name := n, parent := some i0, tree := [] }] else f)
              = f ++ [{ name := n, parent := some i0, tree := [] }]
          rw [if_pos hvp]
      have hlen : (f ++ [({ name := n, parent := p, tree := [] } : STNode)]).length = f.length + 1 := by
        simp
      have hrest := ih (f ++ [({ name := n, parent := p, tree := [] } : STNode)]) (by rw [hlen]; exact h2) i
      calc iterItems (List.foldl applyOp f (.mkTree n p :: rest)) i
          = iterItems (List.foldl applyOp (f ++ [({ name := n, parent := p, tree := [] } : STNode)]) rest) i := by
            rw [List.foldl_cons, happ]
        _ = iterItems (f ++ [({ name := n, parent := p, tree := [] } : STNode)]) i ++ addsTo i rest := hrest
        _ = iterItems f i ++ addsTo i rest := by rw [iterItems_append _ _ rfl]
        _ = iterItems f i ++ addsTo i (SOp.mkTree n p :: rest) := by
            simp [addsTo, List.filterMap_cons]
    | add t e =>
      simp only [opsValid, Bool.and_eq_true] at h
      obtain ⟨⟨h1, h2⟩, h3⟩ := h
      have ht : t < f.length := by simpa using h1
      cases hget : f.get? t with
      | none =>
        have hle : f.length ≤ t := List.get?_eq_none.mp hget
        omega
      | some tgt =>
        have happ : applyOp f (.add t e) = f.set t { tgt with tree := tgt.tree ++ [e] } := by
          show (match f.get? t with
            | some tgt =>
              if entryValid f.length e then f.set t { tgt with tree := tgt.tree ++ [e] } else f
            | Option.none => f) = _
          rw [hget]
          dsimp only
          rw [if_pos h2]
        have hlen : (f.set t { tgt with tree := tgt.tree ++ [e] }).length = f.length := by
          simp
        have hrest := ih (f.set t { tgt with tree := tgt.tree ++ [e] })
          (by rw [hlen]; exact h3) i
        rw [List.foldl_cons, happ, hrest]
        by_cases hti : t = i
        · subst hti
          have hleft : iterItems (f.set t { tgt with tree := tgt.tree ++ [e] }) t
              = tgt.tree ++ [e] := by
            unfold iterItems
            rw [List.get?_set_eq_of_lt _ ht]
          have hright : iterItems f t = tgt.tree := by
            unfold iterItems
            rw [hget]
          rw [hleft, hright]
          simp [addsTo, List.filterMap_cons]
        · have hleft : iterItems (f.set t { tgt with tree := tgt.tree ++ [e] }) i
              = iterItems f i := by
            unfold iterItems
            rw [List.get?_set_ne _ _ hti]
          rw [hleft]
          have : addsTo i (SOp.add t e :: rest) = addsTo i rest := by
            simp [addsTo, List.filterMap_cons, hti]
          rw [this]

/-- C8: iterating a SubTree yields exactly the items passed to its add
calls, in insertion order; entries added to other nodes, in particular to
nested SubTrees, are not visited. -/
theorem subtree_iter_yields_adds (ops : List SOp) (h : opsValid 0 ops = true) (i : Nat) :
    iterItems (buildForest ops) i = addsTo i ops := by
  have hb := iter_foldl ops [] h i
  rw [buildForest, hb]
  simp [iterItems]

/-- The operations of the C8 witness, mirroring the source test
test_SubTree: main gets A, B and then the nested sub1; sub1 gets C. -/
def c8ops : List SOp :=
  [.mkTree "main" Option.none, .add 0 (.leaf "A"), .add 0 (.leaf "B"),
   .mkTree "sub1" (some 0), .add 1 (.leaf "C"), .add 0 (.node 1)]

/-- Witness for C8: iterating main yields A, B, sub1 in insertion order;
the entry C of the nested sub1 is not visited from main. -/
theorem subtree_iter_yields_adds_witness :
    opsValid 0 c8ops = true ∧
    iterItems (buildForest c8ops) 0 = addsTo 0 c8ops ∧
    iterItems (buildForest c8ops) 0 = [.leaf "A", .leaf "B", .node 1] ∧
    iterItems (buildForest c8ops) 1 = [.leaf "C"] :=
  ⟨rfl, subtree_iter_yields_adds c8ops rfl 0, rfl, rfl⟩

/-- Appending a binding for a different key does not change a lookup. -/
theorem lookupKw_append_ne (kwargs : Kwargs) (a k : String) (v : KwVal)
    (hk : (k == a) = false) :
    lookupKw (kwargs ++ [(a, v)]) k = lookupKw kwargs k := by
  induction kwargs with
  | nil =>
    simp only [List.nil_append, lookupKw, List.find?]
    have haf : (a == k) = false := by
      cases hak : a == k
      · rfl
      · have hak2 : a = k := by simpa using hak
        subst hak2
        simp at hk
    rw [haf]
  | cons p rest ih =>
    simp only [List.cons_append, lookupKw, List.find?]
    cases hp : p.1 == k
    · simpa [lookupKw] using ih
    · rfl

/-- The default insertion does not change the lookup of any other key. -/
theorem lookupKw_initKwargs (kwargs : Kwargs) (k : String)
    (hk : (k == "default") = false) :
    lookupKw (initKwargs kwargs) k = lookupKw kwargs k := by
  unfold initKwargs
  by_cases hd : (keysOf kwargs).contains "default" = true
  · rw [if_pos hd]
  · rw [if_neg hd]
    exact lookupKw_append_ne kwargs "default" k _ hk

/-- The inference of __init__ lines 59-79 agrees case by case with the
wording of the claim. -/
theorem sourceSelect_claimed (v : PyVal) :
    sourceSelect v = claimedRule Option.none v := by
  cases v <;> rfl

/-- C1: the conversion rule of a constructed DataItem follows the claimed
precedence: an explicitly supplied str2type; otherwise str for a None or
string default, the boolean parser for a bool default, dynamic evaluation
for list, tuple and dict defaults, array evaluation for a numpy-array
default, the type itself for an int, float or complex default; otherwise
generic dynamic evaluation.  The rule is then applied to the
unit-normalized string by _process_value (see applyStr2Type). -/
theorem str2type_precedence (kwargs : Kwargs) (d : DataItem)
    (h : DataItem.init kwargs = .ok d) :
    d.str2type = claimedRule ((lookupKw kwargs "str2type").map coerceRule) d.default := by
  unfold DataItem.init at h
  cases hname : lookupKw kwargs "name" with
  | none => rw [hname] at h; exact Except.noConfusion h
  | some nameKw =>
    rw [hname] at h
    dsimp only at h
    cases hfind : (initKwargs kwargs).find? (fun p => !(legalData.contains p.1)) with
    | some p => rw [hfind] at h; exact Except.noConfusion h
    | none =>
      rw [hfind] at h
      dsimp only at h
      cases hchk : checkValidity (initKwargs kwargs) with
      | error e => rw [hchk] at h; exact Except.noConfusion h
      | ok u =>
        cases u
        rw [hchk] at h
        have hd : d = { name := coerceVal nameKw
                        default := defaultOf (initKwargs kwargs)
                        str2type := ruleOf (initKwargs kwargs)
                        unit := unitOf (initKwargs kwargs)
                        minmax := minmaxOf (initKwargs kwargs)
                        options := optionsOf (initKwargs kwargs)
                        nspace := nspaceOf (initKwargs kwargs)
                        validate := Option.none
                        values := [defaultOf (initKwargs kwargs)]
                        assigned := false } := by
          cases h
          rfl
        rw [hd]
        show ruleOf (initKwargs kwargs)
          = claimedRule ((lookupKw kwargs "str2type").map coerceRule)
              (defaultOf (initKwargs kwargs))
        unfold ruleOf
        rw [lookupKw_initKwargs kwargs "str2type" rfl]
        cases lookupKw kwargs "str2type" with
        | none => exact sourceSelect_claimed _
        | some kw => rfl

/-- Constructor call DataItem(name=A, default=True). -/
def c1kwargs : Kwargs :=
  [("name", .val (.str "A")), ("default", .val (.bool true))]

/-- The data item of the C1 witness. -/
def c1item : DataItem := itemOf c1kwargs

/-- Witness for C1: DataItem(name=A, default=True) succeeds, supplies no
str2type, and gets the boolean parser, as the claimed precedence says. -/
theorem str2type_precedence_witness :
    DataItem.init c1kwargs = .ok c1item ∧
    c1item.str2type
      = claimedRule ((lookupKw c1kwargs "str2type").map coerceRule) c1item.default ∧
    c1item.str2type = .str2boolRule :=
  ⟨rfl, str2type_precedence c1kwargs c1item rfl, rfl⟩

/-- C10: construction succeeds only when a name keyword is supplied and
every supplied keyword is in the fixed legal list (which is exactly the
thirteen names of _legal_data and does not include validate); any illegal
keyword, validate among them, makes the constructor raise ValueError. -/
theorem init_legal_kwargs (kwargs : Kwargs) :
    legalData = ["name", "default", "unit", "help", "value", "str2type", "minmax",
      "options", "widget", "validator", "namespace", "user_data", "symbol"] ∧
    "validate" ∉ legalData ∧
    (∀ d, DataItem.init kwargs = .ok d →
      "name" ∈ keysOf kwargs ∧ ∀ k ∈ keysOf kwargs, k ∈ legalData) ∧
    (∀ k, k ∈ keysOf kwargs → k ∉ legalData →
      ∃ e, DataItem.init kwargs = .error e ∧ e.pyClass = .valueError) := by
  refine ⟨rfl, by decide, ?_, ?_⟩
  · intro d h
    unfold DataItem.init at h
    cases hname : lookupKw kwargs "name" with
    | none => rw [hname] at h; exact Except.noConfusion h
    | some nameKw =>
      rw [hname] at h
      dsimp only at h
      cases hfind : (initKwargs kwargs).find? (fun p => !(legalData.contains p.1)) with
      | some p => rw [hfind] at h; exact Except.noConfusion h
      | none =>
        constructor
        · unfold lookupKw at hname
          cases hf : kwargs.find? (fun p => p.1 == "name") with
          | none => rw [hf] at hname; exact Option.noConfusion hname
          | some p =>
            have hmem : p ∈ kwargs := List.mem_of_find?_eq_some hf
            have hpk := List.find?_some hf
            have hpn : p.1 = "name" := by simpa using hpk
            exact hpn ▸ List.mem_map_of_mem (fun q => q.1) hmem
        · intro k hk
          obtain ⟨p, hp, hpk⟩ := List.mem_map.mp hk
          have hp2 : p ∈ initKwargs kwargs := by
            unfold initKwargs
            by_cases hd : (keysOf kwargs).contains "default" = true
            · rw [if_pos hd]; exact hp
            · rw [if_neg hd]; exact List.mem_append_left _ hp
          have hleg := List.find?_eq_none.mp hfind p hp2
          have : legalData.contains p.1 = true := by
            cases hc : legalData.contains p.1
            · exact absurd (by rw [hc]; rfl) hleg
            · rfl
          rw [← hpk]
          exact List.mem_of_elem_eq_true this
  · intro k hk hleg
    unfold DataItem.init
    cases hname : lookupKw kwargs "name" with
    | none => exact ⟨.missingName, rfl, rfl⟩
    | some nameKw =>
      dsimp only
      obtain ⟨p, hp, hpk⟩ := List.mem_map.mp hk
      have hp2 : p ∈ initKwargs kwargs := by
        unfold initKwargs
        by_cases hd : (keysOf kwargs).contains "default" = true
        · rw [if_pos hd]; exact hp
        · rw [if_neg hd]; exact List.mem_append_left _ hp
      cases hfind : (initKwargs kwargs).find? (fun p => !(legalData.contains p.1)) with
      | none =>
        have hleg2 := List.find?_eq_none.mp hfind p hp2
        have : legalData.contains p.1 = true := by
          cases hc : legalData.contains p.1
          · exact absurd (by rw [hc]; rfl) hleg2
          · rfl
        exact absurd (hpk ▸ List.mem_of_elem_eq_true this) hleg
      | some p2 =>
        exact ⟨.illegalArg (DataItem.signature (coerceVal nameKw)) p2.1, rfl, rfl⟩

/-- Constructor call DataItem(name=A, default=1.0, validate=f), the call
shape of the source test test_DataItem_validate. -/
def c10kwargs : Kwargs :=
  [("name", .val (.str "A")), ("default", .val (.float 1)),
   ("validate", .vfn (fun _ => .ok ()))]

/-- Witness for C10: supplying the validate keyword makes the constructor
raise ValueError. -/
theorem init_legal_kwargs_witness :
    ∃ e, DataItem.init c10kwargs = .error e ∧ e.pyClass = .valueError :=
  (init_legal_kwargs c10kwargs).2.2.2 "validate" (by simp [keysOf, c10kwargs])
    (by decide)

end Parampool
